import Mathlib

/-!
# Verification of `snowmicropyn/profile.py` (`Profile` entity)

A shallow embedding of the `Profile` class of the snowmicropen repository:
its coordinate/timestamp normalization at construction, the marker store
backed by a ConfigParser `markers` section, and the sample windowing
operation `samples_within`.

Modelling conventions:
* Python floats are modelled as rationals (`ℚ`); the operations the code
  performs on them (negation, comparison, subtraction) are exact in both.
* Python exceptions are modelled with `Except PyError`; a total return type
  models code that cannot raise.
* The ConfigParser `markers` section is modelled as an association list
  `List (String × IniValue)`; ConfigParser stores section options in a
  dict, so keys are unique in any reachable store.
-/

set_option autoImplicit false

namespace Snowmicropyn

/-- The Python exception kinds the embedded code can raise. -/
inductive PyError where
  /-- `ConfigParser.NoOptionError` raised by `getfloat` on an absent option. -/
  | noOptionError (sec opt : String)
  /-- `KeyError`, raised by `Profile.marker` when no (truthy) fallback is given. -/
  | keyError (msg : String)
  /-- `ValueError`, raised by `float(...)` on a malformed string and by `save`. -/
  | valueError (msg : String)
  /-- `IndexError`, raised by indexing into an empty numpy selection. -/
  | indexError
  /-- `AttributeError`, raised by reading a never-assigned instance attribute. -/
  | attributeError (name : String)
  deriving DecidableEq, Repr

/-- The value stored under one option of the `markers` section.
`num q` is the text produced by Python's `str(value)` for the float `q`
(modelled from the spec: the textual coercion round-trips to the exact
stored value, §8 "Setting a marker then getting it ... returns the exact
stored value"); `raw s` is arbitrary text loaded from a sidecar file. -/
inductive IniValue where
  | num (q : ℚ)
  | raw (s : String)
  deriving DecidableEq, Repr

instance instDecidableEqExcept {ε α : Type} [DecidableEq ε] [DecidableEq α] :
    DecidableEq (Except ε α) := fun a b =>
  match a, b with
  | Except.ok x, Except.ok y =>
    if h : x = y then Decidable.isTrue (by rw [h])
    else Decidable.isFalse (by simp [h])
  | Except.error e, Except.error f =>
    if h : e = f then Decidable.isTrue (by rw [h])
    else Decidable.isFalse (by simp [h])
  | Except.ok _, Except.error _ => Decidable.isFalse (fun h => Except.noConfusion h)
  | Except.error _, Except.ok _ => Decidable.isFalse (fun h => Except.noConfusion h)

/-- Sum a list of decimal digit characters into a natural number. -/
def natOfDigits (cs : List Char) : Nat :=
  cs.foldl (fun n c => 10 * n + (c.toNat - 48)) 0

/-- Python's `str.upper()` for the ASCII hemisphere letters of the header:
upper-case every character. -/
def pyUpper (s : String) : String :=
  String.mk (s.data.map Char.toUpper)

/-- Modelled from the spec: the sidecar store holds markers as
`name = floatstring` entries (§6), decoded by Python's `float`.  This model
accepts an optional sign followed by decimal digits with at most one point
(the inputs the store's own coercion produces); other text is malformed and
raises `ValueError`. -/
def parseFloat (s : String) : Except PyError ℚ :=
  let p : Bool × List Char :=
    match s.data with
    | '-' :: t => (true, t)
    | '+' :: t => (false, t)
    | t => (false, t)
  let ip := p.2.takeWhile fun c => c != '.'
  let q : Option ℚ :=
    match p.2.drop ip.length with
    | [] =>
      if !ip.isEmpty && ip.all Char.isDigit then some (natOfDigits ip : ℚ)
      else none
    | _ :: fp =>
      if (!ip.isEmpty || !fp.isEmpty) && ip.all Char.isDigit && fp.all Char.isDigit then
        some ((natOfDigits ip : ℚ) + (natOfDigits fp : ℚ) / (10 : ℚ) ^ fp.length)
      else none
  match q with
  | some v => Except.ok (if p.1 then -v else v)
  | none => Except.error (PyError.valueError s)

/-- Look up an option in a section, first match (ConfigParser sections are
dicts, so reachable stores have unique keys and "first" is "the" match). -/
def iniLookup : List (String × IniValue) → String → Option IniValue
  | [], _ => none
  | (k, v) :: t, name => if k = name then some v else iniLookup t name

/-- `ConfigParser.set` on the `markers` section: overwrite the existing
entry for the key, or append a new one. -/
def iniSet : List (String × IniValue) → String → IniValue → List (String × IniValue)
  | [], name, v => [(name, v)]
  | (k, w) :: t, name, v =>
    if k = name then (k, v) :: t else (k, w) :: iniSet t name v

/-- `ConfigParser.remove_option` on the `markers` section: delete the entry
for the key and report `true`, or leave the store unchanged and report
`false` when the key is absent.  It does not raise (the `markers` section
always exists after construction). -/
def iniRemove : List (String × IniValue) → String → List (String × IniValue) × Bool
  | [], _ => ([], false)
  | (k, w) :: t, name =>
    if k = name then (t, true)
    else
      let r := iniRemove t name
      ((k, w) :: r.1, r.2)

/-- `ConfigParser.getfloat('markers', name)`: raise `NoOptionError` when the
option is absent, otherwise decode the stored text with `float`, which
raises `ValueError` on malformed text. -/
def getfloat (ini : List (String × IniValue)) (name : String) : Except PyError ℚ :=
  match iniLookup ini name with
  | none => Except.error (PyError.noOptionError "markers" name)
  | some (IniValue.num q) => Except.ok q
  | some (IniValue.raw s) => parseFloat s

/-- The message `str(NoOptionError(option, section))` carries, wrapped by
`KeyError(e)` in `Profile.marker`. -/
def noOptionMsg (sec opt : String) : String :=
  "No option " ++ opt ++ " in section: " ++ sec

/-- Embeds `Profile.marker` (profile.py lines 105-111):
`getfloat`, catching only `NoOptionError`; on that error return `fallback`
if it is truthy (Python `if fallback:` — truthy means not `None` and not
`0.0`), else raise `KeyError`.  A `ValueError` from decoding propagates. -/
def marker (ini : List (String × IniValue)) (name : String) (fallback : Option ℚ) :
    Except PyError ℚ :=
  match getfloat ini name with
  | Except.ok v => Except.ok v
  | Except.error (PyError.noOptionError sec opt) =>
    match fallback with
    | some f =>
      if f ≠ 0 then Except.ok f
      else Except.error (PyError.keyError (noOptionMsg sec opt))
    | none => Except.error (PyError.keyError (noOptionMsg sec opt))
  | Except.error e => Except.error e

/-- Embeds `Profile.set_marker` (profile.py lines 113-114): store
`str(value)` under `name` in the `markers` section (in-memory only). -/
def set_marker (ini : List (String × IniValue)) (name : String) (value : ℚ) :
    List (String × IniValue) :=
  iniSet ini name (IniValue.num value)

/-- Embeds `Profile.remove_marker` (profile.py lines 116-117): call
`remove_option` and ignore its boolean result; never raises. -/
def remove_marker (ini : List (String × IniValue)) (name : String) :
    Except PyError (List (String × IniValue)) :=
  Except.ok (iniRemove ini name).1

/-- Embeds `Profile.save` (profile.py lines 123-134): choose the target
path (`ini_filename` argument if truthy — a non-empty string — else the
profile's default sidecar path), then raise `ValueError` if the `markers`
section is empty, else write.  The emptiness check precedes the `open`
call, so nothing is written on the error path; on success the result is
the written path and section content. -/
def save (ini : List (String × IniValue)) (default_filename : String)
    (ini_filename : Option String) : Except PyError (String × List (String × IniValue)) :=
  let filename :=
    match ini_filename with
    | some f => if f = "" then default_filename else f
    | none => default_filename
  if ini.isEmpty then
    Except.error (PyError.valueError "Nothing to save, set some markers first")
  else
    Except.ok (filename, ini)

/-- The instance attributes touched by the coordinate fragment of
`Profile.__init__`.  `latitude`/`longitude` are the public attributes the
constructor assigns; `priv_latitude`/`priv_longitude` model the instance
attributes `_latitude`/`_longitude`, which are `none` while unassigned
(reading an unassigned instance attribute raises `AttributeError`). -/
structure Coords where
  latitude : ℚ
  longitude : ℚ
  priv_latitude : Option ℚ
  priv_longitude : Option ℚ
  deriving DecidableEq, Repr

/-- Embeds the coordinate fragment of `Profile.__init__` (profile.py lines
33-40): assign `self.latitude`/`self.longitude` from the header magnitudes,
then, when the hemisphere letter upper-cased differs from `'N'` (resp.
`'E'`), execute `self._latitude = -self._latitude` (resp. for longitude) —
which reads the never-assigned private attribute. -/
def initCoords (lat lon : ℚ) (north east : String) : Except PyError Coords :=
  let st : Coords :=
    { latitude := lat, longitude := lon, priv_latitude := none, priv_longitude := none }
  let step1 : Except PyError Coords :=
    if pyUpper north ≠ "N" then
      match st.priv_latitude with
      | none => Except.error (PyError.attributeError "_latitude")
      | some v => Except.ok { st with priv_latitude := some (-v) }
    else Except.ok st
  match step1 with
  | Except.error e => Except.error e
  | Except.ok st1 =>
    if pyUpper east ≠ "E" then
      match st1.priv_longitude with
      | none => Except.error (PyError.attributeError "_longitude")
      | some v => Except.ok { st1 with priv_longitude := some (-v) }
    else Except.ok st1

/-- Gregorian leap-year rule, as used by Python's `datetime`. -/
def isLeapYear (y : Int) : Bool :=
  y % 4 == 0 && (y % 100 != 0 || y % 400 == 0)

/-- Days in a month of the proleptic Gregorian calendar. -/
def daysInMonth (y m : Int) : Int :=
  if m == 2 then (if isLeapYear y then 29 else 28)
  else if m == 4 || m == 6 || m == 9 || m == 11 then 30
  else 31

/-- Modelled from the spec: `datetime(year, month, day, hour, minute,
second)` succeeds exactly when the six fields form a valid calendar
date/time (§4.1 "if any combination is out of range for a valid date/time"),
i.e. year in `MINYEAR..MAXYEAR = 1..9999`, month `1..12`, day within the
month, hour `0..23`, minute and second `0..59`; otherwise it raises
`ValueError`. -/
def validDateTime (y mo d h mi s : Int) : Bool :=
  decide (1 ≤ y) && decide (y ≤ 9999) &&
  decide (1 ≤ mo) && decide (mo ≤ 12) &&
  decide (1 ≤ d) && decide (d ≤ daysInMonth y mo) &&
  decide (0 ≤ h) && decide (h ≤ 23) &&
  decide (0 ≤ mi) && decide (mi ≤ 59) &&
  decide (0 ≤ s) && decide (s ≤ 59)

/-- Embeds the timestamp fragment of `Profile.__init__` (profile.py lines
43-53): `self.timestamp = None`, then try `datetime(...)`, catching
`ValueError` and logging a warning.  The total return type models that the
fragment never raises; the result is the assembled timestamp (or `none`)
paired with whether the warning diagnostic was emitted. -/
def buildTimestamp (y mo d h mi s : Int) :
    Option (Int × Int × Int × Int × Int × Int) × Bool :=
  if validDateTime y mo d h mi s then (some (y, mo, d, h, mi, s), false)
  else (none, true)

/-- `self.distance_arr[0]` — depth of the first sample row; `IndexError`
on an empty table. -/
def firstDistance : List (ℚ × ℚ) → Except PyError ℚ
  | [] => Except.error PyError.indexError
  | r :: _ => Except.ok r.1

/-- `self.distance_arr[-1]` — depth of the last sample row; `IndexError`
on an empty table. -/
def lastDistance (samples : List (ℚ × ℚ)) : Except PyError ℚ :=
  match samples.getLast? with
  | some r => Except.ok r.1
  | none => Except.error PyError.indexError

/-- Embeds `Profile.samples_within` (profile.py lines 179-209): default an
omitted bound to the first/last depth, swap the bounds when
`start >= end`, keep the rows with depth strictly between them, and, when
`relativize` is set, subtract the first kept row's depth from the depth
column — `samples[0, 0]` raises `IndexError` when no row was kept. -/
def samples_within (samples : List (ℚ × ℚ)) (start? stop? : Option ℚ)
    (relativize : Bool) : Except PyError (List (ℚ × ℚ)) :=
  match (match start? with
         | some v => Except.ok v
         | none => firstDistance samples),
        (match stop? with
         | some v => Except.ok v
         | none => lastDistance samples) with
  | Except.error e, _ => Except.error e
  | _, Except.error e => Except.error e
  | Except.ok start, Except.ok stop =>
    let lo := if start ≥ stop then stop else start
    let hi := if start ≥ stop then start else stop
    let sel := samples.filter fun r => decide (lo < r.1) && decide (r.1 < hi)
    if relativize then
      match sel with
      | [] => Except.error PyError.indexError
      | first :: _ => Except.ok (sel.map fun r => (r.1 - first.1, r.2 - 0))
    else Except.ok sel

/-! ## Helper lemmas about the marker store -/

theorem iniLookup_iniSet_self (l : List (String × IniValue)) (name : String) (v : IniValue) :
    iniLookup (iniSet l name v) name = some v := by
  induction l with
  | nil => simp [iniSet, iniLookup]
  | cons hd t ih =>
    by_cases hk : hd.1 = name
    · simp [iniSet, iniLookup, hk]
    · simp [iniSet, iniLookup, hk, ih]

theorem iniLookup_eq_none_of_not_mem (l : List (String × IniValue)) (name : String)
    (h : name ∉ l.map Prod.fst) : iniLookup l name = none := by
  induction l with
  | nil => rfl
  | cons hd t ih =>
    simp only [List.map_cons, List.mem_cons] at h
    push_neg at h
    have hk : ¬hd.1 = name := fun he => h.1 he.symm
    simp [iniLookup, hk, ih h.2]

theorem iniLookup_iniRemove_self (l : List (String × IniValue)) (name : String)
    (hnd : (l.map Prod.fst).Nodup) : iniLookup (iniRemove l name).1 name = none := by
  induction l with
  | nil => rfl
  | cons hd t ih =>
    simp only [List.map_cons, List.nodup_cons] at hnd
    by_cases hk : hd.1 = name
    · simpa [iniRemove, hk] using iniLookup_eq_none_of_not_mem t name (hk ▸ hnd.1)
    · simp [iniRemove, hk, iniLookup, ih hnd.2]

theorem iniRemove_absent (l : List (String × IniValue)) (name : String)
    (hab : iniLookup l name = none) : iniRemove l name = (l, false) := by
  induction l with
  | nil => rfl
  | cons hd t ih =>
    by_cases hk : hd.1 = name
    · simp [iniLookup, hk] at hab
    · simp only [iniLookup, hk, if_false] at hab
      simp [iniRemove, hk, ih hab]

/-! ## Claims -/

/-- C1: the claim says a non-'N' latitude hemisphere letter makes the
publicly exposed `latitude` the negated header magnitude.  In the source
the negation is applied to the never-assigned private attribute
`_latitude`, so construction with hemisphere `'S'` raises
`AttributeError` instead, and in the `'N'`/`'E'` case the public fields are
the unchanged magnitudes with the private ones still unassigned. -/
theorem initCoords_south_hemisphere_faults :
    initCoords 46 8 "S" "E" = Except.error (PyError.attributeError "_latitude") ∧
    initCoords 46 8 "s" "E" = Except.error (PyError.attributeError "_latitude") ∧
    initCoords 46 8 "N" "e" =
      Except.ok { latitude := 46, longitude := 8,
                  priv_latitude := none, priv_longitude := none } := by
  refine ⟨?_, ?_, ?_⟩ <;> decide

/-- C2: `samples_within` over a range matching zero rows with
`relativize_distance=True` raises `IndexError` (from `samples[0, 0]` on the
empty selection), not the checked "empty range" error the claim states;
evaluated here on depths `[1, 2]` with the exclusive range `(1, 2)`. -/
theorem samples_within_empty_match_relativize_faults :
    samples_within [((1 : ℚ), (10 : ℚ)), (2, 20)] (some 1) (some 2) true =
      Except.error PyError.indexError := by
  decide

/-- C3 counterexample: with an absent marker and the non-null fallback
`0.0`, `Profile.marker` does not return the fallback — Python's
`if fallback:` treats `0.0` as falsy, so it raises `KeyError`. -/
theorem marker_zero_fallback_counterexample :
    marker [] "surface" (some 0) =
      Except.error (PyError.keyError (noOptionMsg "markers" "surface")) ∧
    marker [] "surface" (some 0) ≠ Except.ok 0 := by
  constructor <;> decide

/-- C3 (amended): for an absent marker name, a nonzero fallback is
returned; a `0.0` fallback behaves like no fallback, and without a truthy
fallback the call fails with `KeyError` (distinguishable by kind from the
`ValueError` raised for malformed stored values). -/
theorem marker_fallback_semantics (ini : List (String × IniValue)) (name : String)
    (hab : iniLookup ini name = none) :
    (∀ f : ℚ, f ≠ 0 → marker ini name (some f) = Except.ok f) ∧
    marker ini name (some 0) =
      Except.error (PyError.keyError (noOptionMsg "markers" name)) ∧
    marker ini name none =
      Except.error (PyError.keyError (noOptionMsg "markers" name)) := by
  refine ⟨fun f hf => ?_, ?_, ?_⟩
  · simp [marker, getfloat, hab, hf]
  · simp [marker, getfloat, hab]
  · simp [marker, getfloat, hab]

/-- C3 witness: instantiating `marker_fallback_semantics` on the empty
store with fallback `5`. -/
theorem marker_fallback_semantics_witness :
    iniLookup [] "surface" = none ∧ marker [] "surface" (some 5) = Except.ok 5 :=
  ⟨rfl, (marker_fallback_semantics [] "surface" rfl).1 5 (by decide)⟩

/-- C4 counterexample: `remove_marker` on a store without the name returns
normally (`remove_option` just reports `False`); it does not fail with a
"marker not found" error as the claim states. -/
theorem remove_marker_absent_counterexample :
    remove_marker [] "surface" = Except.ok [] := by
  decide

/-- C4 (amended): removing an absent marker is a silent no-op — the call
succeeds and leaves the store unchanged. -/
theorem remove_marker_absent_noop (ini : List (String × IniValue)) (name : String)
    (hab : iniLookup ini name = none) :
    remove_marker ini name = Except.ok ini := by
  simp [remove_marker, iniRemove_absent ini name hab]

/-- C4 witness: instantiating `remove_marker_absent_noop` on a one-entry
store lacking the name. -/
theorem remove_marker_absent_noop_witness :
    iniLookup [("ground", IniValue.num 2)] "surface" = none ∧
    remove_marker [("ground", IniValue.num 2)] "surface" =
      Except.ok [("ground", IniValue.num 2)] :=
  ⟨by decide, remove_marker_absent_noop [("ground", IniValue.num 2)] "surface" (by decide)⟩

/-- Helper: the bound chosen as the lower end by the swap is the minimum. -/
theorem swap_lo_eq_min (a b : ℚ) : (if a ≥ b then b else a) = min a b := by
  rcases le_or_lt b a with h | h
  · simp [h, min_eq_right h]
  · simp [not_le.2 h, min_eq_left h.le]

/-- Helper: the bound chosen as the upper end by the swap is the maximum. -/
theorem swap_hi_eq_max (a b : ℚ) : (if a ≥ b then a else b) = max a b := by
  rcases le_or_lt b a with h | h
  · simp [h, max_eq_left h]
  · simp [not_le.2 h, max_eq_right h.le]

/-- Helper: with both bounds given and no relativization, `samples_within`
returns the rows with depth strictly between the minimum and maximum of
the two bounds. -/
theorem samples_within_some_eq_filter (samples : List (ℚ × ℚ)) (a b : ℚ) :
    samples_within samples (some a) (some b) false =
      Except.ok (samples.filter fun r =>
        decide (min a b < r.1) && decide (r.1 < max a b)) := by
  simp only [samples_within, swap_lo_eq_min, swap_hi_eq_max]
  simp

/-- C5: without relativization, `samples_within` returns exactly the rows
whose depth lies strictly between the two bounds (after the swap, strictly
above the lower and strictly below the upper; boundary-equal rows are
excluded), where an omitted bound defaults to the profile's first/last
depth. -/
theorem samples_within_strict_window (samples : List (ℚ × ℚ)) (hne : samples ≠ [])
    (start? stop? : Option ℚ) (r : ℚ × ℚ) :
    ∃ sel, samples_within samples start? stop? false = Except.ok sel ∧
      (r ∈ sel ↔ r ∈ samples ∧
        min (start?.getD (samples.head hne).1) (stop?.getD (samples.getLast hne).1) < r.1 ∧
        r.1 < max (start?.getD (samples.head hne).1) (stop?.getD (samples.getLast hne).1)) := by
  have hs : (match start? with
             | some v => Except.ok v
             | none => firstDistance samples) =
      Except.ok (start?.getD (samples.head hne).1) := by
    cases start? with
    | some v => rfl
    | none =>
      cases samples with
      | nil => exact absurd rfl hne
      | cons h t => rfl
  have he : (match stop? with
             | some v => Except.ok v
             | none => lastDistance samples) =
      Except.ok (stop?.getD (samples.getLast hne).1) := by
    cases stop? with
    | some v => rfl
    | none => simp [lastDistance, List.getLast?_eq_getLast samples hne]
  have hcall : samples_within samples start? stop? false =
      samples_within samples (some (start?.getD (samples.head hne).1))
        (some (stop?.getD (samples.getLast hne).1)) false := by
    simp only [samples_within]
    rw [hs, he]
  rw [hcall, samples_within_some_eq_filter]
  refine ⟨_, rfl, ?_⟩
  simp [List.mem_filter, and_assoc]

/-- C5 witness: instantiating `samples_within_strict_window` on the table
with depths 1, 2, 3 and an omitted end bound: the boundary rows are
excluded and only the middle row is kept. -/
theorem samples_within_strict_window_witness :
    ∃ sel, samples_within [((1 : ℚ), (10 : ℚ)), (2, 20), (3, 30)] (some 1) none false =
        Except.ok sel ∧
      (((2 : ℚ), (20 : ℚ)) ∈ sel ↔ ((2 : ℚ), (20 : ℚ)) ∈
          [((1 : ℚ), (10 : ℚ)), (2, 20), (3, 30)] ∧
        min ((1 : ℚ)) ((3 : ℚ)) < 2 ∧ (2 : ℚ) < max (1 : ℚ) 3) := by
  have h := samples_within_strict_window [((1 : ℚ), (10 : ℚ)), (2, 20), (3, 30)]
    (by decide) (some 1) none ((2 : ℚ), (20 : ℚ))
  simpa using h

/-- C6: `samples_within` is symmetric in its two bounds — when
`start >= end` the source swaps them, so the lower bound is always applied
first and swapped calls return identical results. -/
theorem samples_within_swap_symmetric (samples : List (ℚ × ℚ)) (a b : ℚ)
    (relativize : Bool) :
    samples_within samples (some a) (some b) relativize =
      samples_within samples (some b) (some a) relativize := by
  have hlo : (if a ≥ b then b else a) = (if b ≥ a then a else b) := by
    rw [swap_lo_eq_min, swap_lo_eq_min, min_comm]
  have hhi : (if a ≥ b then a else b) = (if b ≥ a then b else a) := by
    rw [swap_hi_eq_max, swap_hi_eq_max, max_comm]
  simp only [samples_within, hlo, hhi]

/-- C7: `set_marker` then `marker` with no fallback returns exactly the
stored value, and `remove_marker` then `marker` with no fallback fails with
the `KeyError` marker-not-found error.  The `Nodup` hypothesis is the
key-uniqueness invariant of the ConfigParser section dict. -/
theorem set_get_remove_get (ini : List (String × IniValue)) (name : String) (v : ℚ)
    (hnd : (ini.map Prod.fst).Nodup) :
    marker (set_marker ini name v) name none = Except.ok v ∧
    ∀ ini2, remove_marker ini name = Except.ok ini2 →
      marker ini2 name none =
        Except.error (PyError.keyError (noOptionMsg "markers" name)) := by
  constructor
  · simp [marker, getfloat, set_marker, iniLookup_iniSet_self]
  · intro ini2 h2
    have : ini2 = (iniRemove ini name).1 := by
      simpa [remove_marker, eq_comm] using h2
    subst this
    simp [marker, getfloat, iniLookup_iniRemove_self ini name hnd]

/-- C7 witness: instantiating `set_get_remove_get` on a one-entry store
with marker "surface" set to 5.2. -/
theorem set_get_remove_get_witness :
    marker (set_marker [("ground", IniValue.num 2)] "surface" (26/5)) "surface" none =
      Except.ok (26/5) ∧
    marker [] "ground" none =
      Except.error (PyError.keyError (noOptionMsg "markers" "ground")) :=
  ⟨(set_get_remove_get [("ground", IniValue.num 2)] "surface" (26/5) (by decide)).1,
   (set_get_remove_get [("ground", IniValue.num 2)] "ground" 0 (by decide)).2 [] (by decide)⟩

/-- C8: `save` on an empty marker section fails with the "nothing to save"
`ValueError` (the check precedes the file `open`, so nothing is written or
overwritten); with at least one marker it succeeds and writes to the given
path, or to the default sidecar path when the path argument is omitted. -/
theorem save_requires_markers (ini : List (String × IniValue)) (dflt : String)
    (path? : Option String) :
    (ini = [] →
      save ini dflt path? =
        Except.error (PyError.valueError "Nothing to save, set some markers first")) ∧
    (ini ≠ [] → path? = none → save ini dflt path? = Except.ok (dflt, ini)) ∧
    (ini ≠ [] → ∀ p, path? = some p → p ≠ "" →
      save ini dflt path? = Except.ok (p, ini)) := by
  refine ⟨fun h0 => ?_, fun hne hp => ?_, fun hne p hp hpne => ?_⟩
  · simp [save, h0]
  · subst hp; simp [save, List.isEmpty_iff, hne]
  · subst hp; simp [save, List.isEmpty_iff, hne, hpne]

/-- C8 witness: instantiating `save_requires_markers` on the empty section
(fails), and on a one-marker section with the path omitted and with an
explicit path. -/
theorem save_requires_markers_witness :
    save [] "P.ini" none =
      Except.error (PyError.valueError "Nothing to save, set some markers first") ∧
    save [("surface", IniValue.num 5)] "P.ini" none =
      Except.ok ("P.ini", [("surface", IniValue.num 5)]) ∧
    save [("surface", IniValue.num 5)] "P.ini" (some "other.ini") =
      Except.ok ("other.ini", [("surface", IniValue.num 5)]) :=
  ⟨(save_requires_markers [] "P.ini" none).1 rfl,
   (save_requires_markers [("surface", IniValue.num 5)] "P.ini" none).2.1
     (by decide) rfl,
   (save_requires_markers [("surface", IniValue.num 5)] "P.ini" (some "other.ini")).2.2
     (by decide) "other.ini" rfl (by decide)⟩

/-- C9: when the six header fields do not form a valid calendar date/time,
the constructor fragment leaves the timestamp absent (`None`) and emits the
warning diagnostic; its total return type models that it never raises. -/
theorem buildTimestamp_invalid_degrades (y mo d h mi s : Int)
    (hinv : validDateTime y mo d h mi s = false) :
    buildTimestamp y mo d h mi s = (none, true) := by
  simp [buildTimestamp, hinv]

/-- C9 witness: instantiating `buildTimestamp_invalid_degrades` at the
spec's example (2021, 2, 30, 12, 0, 0) — February 30 is an invalid day. -/
theorem buildTimestamp_invalid_degrades_witness :
    validDateTime 2021 2 30 12 0 0 = false ∧
    buildTimestamp 2021 2 30 12 0 0 = (none, true) :=
  ⟨by decide, buildTimestamp_invalid_degrades 2021 2 30 12 0 0 (by decide)⟩

/-- C10: when the stored text for a present marker name fails to decode as
a float, `Profile.marker` raises the `ValueError` regardless of any
fallback — only `NoOptionError` (absent key) is caught, so the fallback
never applies to parse failures. -/
theorem marker_malformed_value_raises (ini : List (String × IniValue)) (name s : String)
    (fallback : Option ℚ)
    (hs : iniLookup ini name = some (IniValue.raw s))
    (hp : parseFloat s = Except.error (PyError.valueError s)) :
    marker ini name fallback = Except.error (PyError.valueError s) := by
  simp [marker, getfloat, hs, hp]

/-- C10 witness: instantiating `marker_malformed_value_raises` on a store
holding the unparseable text "abc" with fallback `1`. -/
theorem marker_malformed_value_raises_witness :
    marker [("surface", IniValue.raw "abc")] "surface" (some 1) =
      Except.error (PyError.valueError "abc") :=
  marker_malformed_value_raises [("surface", IniValue.raw "abc")] "surface" "abc"
    (some 1) (by decide) (by decide)

end Snowmicropyn
